import Mathlib

/-!
Shallow embedding of cjsocks (src/cjsocks.go): FQDN derivation, address
selection, the in-memory FQDN→IP registry, the SOCKS5 resolver and the
docker-event dispatch loop, together with theorems settling the frozen
claims about them.

Go maps with string values are modelled as total functions; indexing a Go
map yields the zero value "" for an absent key, which `mapGet` mirrors.
Go map iteration order is non-deterministic, so network attachments and
port bindings are modelled as lists whose order is an arbitrary
enumeration order.
-/

namespace Cjsocks

/-- src/cjsocks.go line 53: default base domain. -/
def default_base_domain : String := "container"

/-- src/cjsocks.go line 54: default docker network name. -/
def default_cj_network_name : String := "cj-socks5"

/-- src/cjsocks.go line 56. -/
def label_cj_hostname : String := "org.cj-tools.hosts.host_name"

/-- src/cjsocks.go line 57. -/
def label_docker_compose_service : String := "com.docker.compose.service"

/-- src/cjsocks.go line 58. -/
def label_docker_compose_project : String := "com.docker.compose.project"

/-- src/cjsocks.go line 59. -/
def label_cj_subdomain : String := "org.cj-tools.hosts.sub_domain"

/-- src/cjsocks.go line 60. -/
def label_cj_domain : String := "org.cj-tools.hosts.domain_name"

/-- src/cjsocks.go line 61. -/
def label_cj_flag_use_container_base_domain : String :=
  "org.cj-tools.hosts.use_container_base_domain"

/-- `strings.ToLower`, restricted to the ASCII lowering `Char.toLower`
(the network names and FQDNs involved are ASCII). -/
def strToLower (s : String) : String := ⟨s.data.map Char.toLower⟩

/-- `strings.Split(s, ":")[0]`: everything before the first colon
(src/cjsocks.go line 193). -/
def firstComponent (s : String) : String := ⟨s.data.takeWhile (fun c => ¬ c = ':')⟩

/-- The `fqdnToIp map[string]string` field of `App` (src/cjsocks.go line 65),
as a total function: `none` models an absent key. -/
abbrev Registry := String → Option String

/-- Go map indexing: the zero value `""` stands for an absent key. -/
def mapGet (m : Registry) (k : String) : String := (m k).getD ""

/-- The freshly made empty map of src/cjsocks.go line 77. -/
def emptyRegistry : Registry := fun _ => none

/-- The loop body of `registerDomains`: `app.fqdnToIp[fqdn] = ip` for every
listed fqdn, in order (src/cjsocks.go lines 260-264). -/
def upsertAll (ip : String) (m : Registry) (domains : List String) : Registry :=
  domains.foldl (fun acc fqdn => fun k => if k = fqdn then some ip else acc k) m

/-- `func (app *App) registerDomains(domains []string, ip string)`
(src/cjsocks.go lines 256-265): returns unchanged when `ip` is empty,
otherwise stores every listed fqdn verbatim. -/
def registerDomains (m : Registry) (domains : List String) (ip : String) : Registry :=
  if ip = "" then m else upsertAll ip m domains

/-- `func (app *App) removeDomains(domains []string)`
(src/cjsocks.go lines 267-271): `delete(app.fqdnToIp, domain)` for each
listed domain. -/
def removeDomains (m : Registry) (domains : List String) : Registry :=
  domains.foldl (fun acc d => fun k => if k = d then none else acc k) m

/-- `container.Config`: the label map (Go map with zero value `""`),
`Hostname` and `Domainname` fields consumed by `getDomains`. -/
structure ContainerConfig where
  labels : String → String
  hostname : String
  domainname : String

/-- The inspected container: `Config` plus `Name` (docker names carry a
leading slash, stripped by `container.Name[1:]`). -/
structure Container where
  config : ContainerConfig
  name : String

/-- The `public_hostname` computation of `getDomains`
(src/cjsocks.go lines 363-375).  `Hostname > ""` in Go is string
comparison against the empty string, i.e. non-emptiness. -/
def publicHostname (c : Container) : String :=
  let h := c.config.labels label_cj_hostname
  if ¬ h = "" then h
  else
    let hs := c.config.labels label_docker_compose_service
    if ¬ hs = "" then hs
    else if ¬ c.config.hostname.length = 12 ∧ ¬ c.config.hostname = "" then
      c.config.hostname
    else c.name.drop 1

/-- `func getDomains(client, ID, defaultBaseDomain) []string`
(src/cjsocks.go lines 354-421), with the inspected container passed
directly.  Returns the single-element FQDN list the source builds. -/
def getDomains (c : Container) (defaultBaseDomain : String) : List String :=
  let ph := publicHostname c
  if c.config.labels label_cj_flag_use_container_base_domain = "true"
      ∧ ¬ c.config.domainname = "" then
    [ph ++ "." ++ c.config.domainname]
  else
    let f := ph ++ "."
    let f :=
      if ¬ c.config.labels label_cj_subdomain = "" then
        f ++ (c.config.labels label_cj_subdomain ++ ".")
      else if ¬ c.config.labels label_docker_compose_project = "" then
        f ++ (c.config.labels label_docker_compose_project ++ ".")
      else f
    let f :=
      if ¬ c.config.labels label_cj_domain = "" then
        f ++ c.config.labels label_cj_domain
      else if c.config.labels label_cj_flag_use_container_base_domain = "true"
          ∧ ¬ c.config.domainname = "" then
        f ++ c.config.domainname
      else f ++ defaultBaseDomain
    [f]

/-- `container.NetworkSettings` as consumed by `getContainerIP`:
`networks` lists the `(networkname, net.IPAddress)` pairs in enumeration
order; `ports` lists, per port, the `b.HostIP` strings of its bindings. -/
structure NetworkSettingsModel where
  networks : List (String × String)
  ports : List (List String)

/-- The network loop of `getContainerIP` (src/cjsocks.go lines 288-297):
carries `firstip`, breaks at the first attachment whose lower-cased name
equals `cjnetworkName`; result is `(ip, firstip)` with `ip = ""` when no
attachment matched. -/
def netLoop (cjnetworkName : String) : List (String × String) → String → String × String
  | [], firstip => ("", firstip)
  | (networkname, a) :: rest, firstip =>
    let firstip := if firstip = "" then a else firstip
    if strToLower networkname = cjnetworkName then (a, firstip)
    else netLoop cjnetworkName rest firstip

/-- The inner port-binding loop (src/cjsocks.go lines 305-310):
`ip = b.HostIP; if ip != "" break` over one binding list. -/
def portInner : String → List String → String
  | ip, [] => ip
  | _ip, b :: rest => if ¬ b = "" then b else portInner b rest

/-- The outer port loop (src/cjsocks.go lines 304-311): iterates every
binding list; note the source has no break in the outer loop, so a later
binding list overwrites the value found by an earlier one. -/
def portOuter : String → List (List String) → String
  | ip, [] => ip
  | ip, bindings :: rest => portOuter (portInner ip bindings) rest

/-- `func getContainerIP(app, client, ID) string`
(src/cjsocks.go lines 273-315), with the inspected network settings
passed directly and `app.cjnetworkName` as a parameter. -/
def getContainerIP (cjnetworkName : String) (ns : NetworkSettingsModel) : String :=
  let p := netLoop cjnetworkName ns.networks ""
  let ip := if p.1 = "" then p.2 else p.1
  if ip = "" then portOuter ip ns.ports else ip

/-- `net.ResolveIPAddr("ip", ·)` is the only fallible call of `Resolve`;
it is modelled as an oracle from strings to an error-or-address outcome. -/
abbrev SysResolver := String → Except String String

/-- `func (app App) Resolve(ctx, name)` (src/cjsocks.go lines 318-334):
if the registry holds a non-empty value for `name` (looked up verbatim),
resolve that stored value; otherwise resolve `name` itself; either way the
oracle's outcome is returned unchanged. -/
def Resolve (m : Registry) (sysResolve : SysResolver) (name : String) :
    Except String String :=
  if ¬ mapGet m name = "" then sysResolve (mapGet m name)
  else sysResolve name

/-- A successful `client.InspectContainer` outcome: the container together
with its network settings. -/
structure Inspection where
  container : Container
  netsettings : NetworkSettingsModel

/-- The registry effect of one iteration of the event loop of
`monitorDocker` (src/cjsocks.go lines 192-253).  The action is first
truncated at `":"` (line 193).  `exec_create`/`exec_start`/`exec_die` are
filtered (line 195); `create` only touches the docker network, never the
registry (lines 196-213); `start` registers the derived domains under the
selected address (lines 214-221); the whole body of the
`destroy`/`stop`/`kill`/`die` case is commented out in the source
(lines 233-241), so those actions leave the registry untouched —
regardless of whether inspection would succeed; `connect`, `disconnect`
and unhandled actions only print. -/
def monitorDockerStep (defaultBaseDomain cjnetworkName : String) (action : String)
    (insp : Inspection) (m : Registry) : Registry :=
  let act := firstComponent action
  if act = "exec_create" ∨ act = "exec_start" ∨ act = "exec_die" then m
  else if act = "create" then m
  else if act = "start" then
    registerDomains m (getDomains insp.container defaultBaseDomain)
      (getContainerIP cjnetworkName insp.netsettings)
  else if act = "destroy" ∨ act = "stop" ∨ act = "kill" ∨ act = "die" then m
  else m

/-- The invariant of claim C4: no present registry value is the empty
string. -/
def registryValuesNonEmpty (m : Registry) : Prop :=
  ∀ k v, m k = some v → ¬ v = ""

/-- The first non-empty `IPAddress` among the attachments, in enumeration
order, `""` when none: the final value of the `firstip` accumulator of
`getContainerIP` when the loop runs to completion. -/
def firstNonEmptyAddr (l : List (String × String)) : String :=
  ((l.map Prod.snd).find? (fun s => ¬ s = "")).getD ""

/-- The value computed by the port-binding loops of `getContainerIP` when
entered with an empty candidate: every non-empty binding group overwrites
the accumulator with its first non-empty `HostIP` (or `""` when it has
none), so the last non-empty group decides. -/
def portsScan (ports : List (List String)) : String :=
  ports.foldl
    (fun acc g => if g = [] then acc else (g.find? (fun s => ¬ s = "")).getD "") ""

/-- A container with no naming labels, an autogenerated-looking hostname
and name `/web`, whose derived FQDN under the default base domain is
`web.container`. -/
def c1Container : Container :=
  { config := { labels := fun _ => "", hostname := "0a1b2c3d4e5f", domainname := "" }
    name := "/web" }

/-- Network settings placing `c1Container` on the cj network with address
`172.17.0.2` (a successful inspection outcome). -/
def c1Nets : NetworkSettingsModel :=
  { networks := [("cj-socks5", "172.17.0.2")], ports := [] }

/-- The registry state after `c1Container` was registered. -/
def c1Registry : Registry := registerDomains emptyRegistry ["web.container"] "172.17.0.2"

/-- A container in explicit container-domain mode (flag label `"true"`,
runtime domain `svc.local`, hostname `api`) that also carries subdomain
and domain labels, which branch A must ignore. -/
def c5Container : Container :=
  { config :=
      { labels := fun k =>
          if k = label_cj_flag_use_container_base_domain then "true"
          else if k = label_cj_subdomain then "admin"
          else if k = label_cj_domain then "internal"
          else ""
        hostname := "api"
        domainname := "svc.local" }
    name := "/apisvc" }

/-- A container with no relevant labels, a 12-character autogenerated
hostname and name `/svcweb`. -/
def c6PlainContainer : Container :=
  { config := { labels := fun _ => "", hostname := "0123456789ab", domainname := "" }
    name := "/svcweb" }

/-- A container with compose-project label `shop`, no other naming labels
and name `/web`. -/
def c6ComposeContainer : Container :=
  { config :=
      { labels := fun k => if k = label_docker_compose_project then "shop" else ""
        hostname := "0123456789ab"
        domainname := "" }
    name := "/web" }

/-- A container whose hostname is 12 characters long but clearly not a
hexadecimal ID: the length-only check still discards it. -/
def c7TwelveContainer : Container :=
  { config := { labels := fun _ => "", hostname := "notahexname!", domainname := "" }
    name := "/svcweb" }

/-- A container with a meaningful short hostname. -/
def c7ShortContainer : Container :=
  { config := { labels := fun _ => "", hostname := "api", domainname := "" }
    name := "/other" }

/-- Pointwise description of `upsertAll`: listed keys map to `ip`, all
others keep their prior value. -/
theorem upsertAll_get (ip : String) (domains : List String) :
    ∀ (m : Registry) (k : String),
      upsertAll ip m domains k = if k ∈ domains then some ip else m k := by
  induction domains with
  | nil => intro m k; simp [upsertAll]
  | cons d rest ih =>
    intro m k
    have hstep : upsertAll ip m (d :: rest)
        = upsertAll ip (fun k => if k = d then some ip else m k) rest := rfl
    rw [hstep, ih]
    by_cases hk : k ∈ rest
    · simp [hk]
    · by_cases hd : k = d <;> simp [hk, hd]

/-- Pointwise description of `removeDomains`: listed keys are deleted, all
others keep their prior value. -/
theorem removeDomains_get (domains : List String) :
    ∀ (m : Registry) (k : String),
      removeDomains m domains k = if k ∈ domains then none else m k := by
  induction domains with
  | nil => intro m k; simp [removeDomains]
  | cons d rest ih =>
    intro m k
    have hstep : removeDomains m (d :: rest)
        = removeDomains (fun k => if k = d then none else m k) rest := rfl
    rw [hstep, ih]
    by_cases hk : k ∈ rest
    · simp [hk]
    · by_cases hd : k = d <;> simp [hk, hd]

/-- Pointwise description of `registerDomains` for a non-empty address. -/
theorem registerDomains_get (m : Registry) (domains : List String) (ip : String)
    (hip : ¬ ip = "") (k : String) :
    registerDomains m domains ip k = if k ∈ domains then some ip else m k := by
  rw [registerDomains, if_neg hip, upsertAll_get]

/-- C2 counterexample: `registerDomains` stores keys verbatim and the
lookup in `Resolve` compares verbatim, so `Upsert(["a.b"], "10.0.0.1")`
followed by `Lookup("A.B")` does not return `"10.0.0.1"` — the
case-insensitivity asserted by the claim fails (there is no lower-casing
anywhere on the registry paths in the source). -/
theorem upsert_lookup_case_mismatch :
    ¬ mapGet (registerDomains emptyRegistry ["a.b"] "10.0.0.1") "A.B" = "10.0.0.1"
    ∧ mapGet (registerDomains emptyRegistry ["a.b"] "10.0.0.1") "A.B" = "" := by
  exact ⟨by decide, by decide⟩

/-- C2 (amended): registry keys are case-sensitive.  `Upsert([f], a)` with
non-empty `a` followed by `Lookup` of `f` with identical case returns `a`;
after a subsequent `Remove([f])`, `f` is absent and `Resolve` falls back to
external resolution of `f`. -/
theorem registry_roundtrip_case_sensitive (m : Registry) (f a : String)
    (sysResolve : SysResolver) (ha : ¬ a = "") :
    mapGet (registerDomains m [f] a) f = a
    ∧ removeDomains (registerDomains m [f] a) [f] f = none
    ∧ Resolve (removeDomains (registerDomains m [f] a) [f]) sysResolve f
        = sysResolve f := by
  have h1 : registerDomains m [f] a f = some a := by
    rw [registerDomains_get m [f] a ha]; simp
  have h2 : removeDomains (registerDomains m [f] a) [f] f = none := by
    rw [removeDomains_get]; simp
  refine ⟨by rw [mapGet, h1]; rfl, h2, ?_⟩
  rw [Resolve, mapGet, h2]
  simp

/-- C2 witness: the registry round-trip at the spec's concrete input, with
matching case. -/
theorem registry_roundtrip_case_sensitive_witness :
    mapGet (registerDomains emptyRegistry ["a.b"] "10.0.0.1") "a.b" = "10.0.0.1"
    ∧ removeDomains (registerDomains emptyRegistry ["a.b"] "10.0.0.1") ["a.b"] "a.b" = none
    ∧ Resolve (removeDomains (registerDomains emptyRegistry ["a.b"] "10.0.0.1") ["a.b"])
        Except.ok "a.b" = Except.ok "a.b" :=
  registry_roundtrip_case_sensitive emptyRegistry "a.b" "10.0.0.1" Except.ok (by decide)

/-- C4: `registerDomains` with the empty address is a no-op (the source
returns before touching the map), and the never-stores-empty invariant is
preserved by `registerDomains` and `removeDomains`. -/
theorem upsert_empty_noop_and_nonempty_invariant (m : Registry)
    (domains : List String) (ip : String) (hm : registryValuesNonEmpty m) :
    registerDomains m domains "" = m
    ∧ registryValuesNonEmpty (registerDomains m domains ip)
    ∧ registryValuesNonEmpty (removeDomains m domains) := by
  refine ⟨by rw [registerDomains, if_pos rfl], ?_, ?_⟩
  · by_cases hip : ip = ""
    · rw [hip, registerDomains, if_pos rfl]; exact hm
    · intro k v hkv
      rw [registerDomains_get m domains ip hip] at hkv
      by_cases hk : k ∈ domains
      · rw [if_pos hk] at hkv
        intro hv
        exact hip (by rw [← Option.some.injEq] at hkv; cases hkv; exact hv)
      · rw [if_neg hk] at hkv
        exact hm k v hkv
  · intro k v hkv
    rw [removeDomains_get] at hkv
    by_cases hk : k ∈ domains
    · rw [if_pos hk] at hkv; cases hkv
    · rw [if_neg hk] at hkv
      exact hm k v hkv

/-- C4 witness: the no-op and the invariant at a concrete registry. -/
theorem upsert_empty_noop_and_nonempty_invariant_witness :
    registerDomains (registerDomains emptyRegistry ["a.b"] "10.0.0.1") ["c.d"] ""
        = registerDomains emptyRegistry ["a.b"] "10.0.0.1"
    ∧ registryValuesNonEmpty
        (registerDomains (registerDomains emptyRegistry ["a.b"] "10.0.0.1") ["c.d"] "10.0.0.2")
    ∧ registryValuesNonEmpty
        (removeDomains (registerDomains emptyRegistry ["a.b"] "10.0.0.1") ["c.d"]) := by
  refine upsert_empty_noop_and_nonempty_invariant
    (registerDomains emptyRegistry ["a.b"] "10.0.0.1") ["c.d"] "10.0.0.2" ?_
  intro k v hkv
  rw [registerDomains_get emptyRegistry ["a.b"] "10.0.0.1" (by decide)] at hkv
  by_cases hk : k ∈ ["a.b"]
  · rw [if_pos hk, Option.some.injEq] at hkv
    cases hkv; decide
  · rw [if_neg hk] at hkv; cases hkv

/-- C8: `Resolve` on a name stored with a non-empty address consults the
resolver oracle on the stored address (never on the name), returning its
outcome; on a name absent from the registry it consults the oracle on the
name verbatim and surfaces the outcome unchanged. -/
theorem resolve_registry_hit_and_miss (m : Registry) (sysResolve : SysResolver)
    (name : String) :
    (∀ ip, m name = some ip → ¬ ip = "" →
        Resolve m sysResolve name = sysResolve ip)
    ∧ (m name = none → Resolve m sysResolve name = sysResolve name) := by
  constructor
  · intro ip hip hne
    rw [Resolve, mapGet, hip]
    simp [hne]
  · intro h
    rw [Resolve, mapGet, h]
    simp

/-- C8 witness: a registry hit returns the stored address without touching
the oracle on the name; a miss consults the oracle on the name. -/
theorem resolve_registry_hit_and_miss_witness :
    Resolve (registerDomains emptyRegistry ["a.b"] "10.0.0.1") Except.ok "a.b"
        = Except.ok "10.0.0.1"
    ∧ Resolve (registerDomains emptyRegistry ["a.b"] "10.0.0.1") Except.ok "x.y"
        = Except.ok "x.y" :=
  ⟨(resolve_registry_hit_and_miss (registerDomains emptyRegistry ["a.b"] "10.0.0.1")
      Except.ok "a.b").1 "10.0.0.1" (by decide) (by decide),
   (resolve_registry_hit_and_miss (registerDomains emptyRegistry ["a.b"] "10.0.0.1")
      Except.ok "x.y").2 (by decide)⟩

/-- C10: `registerDomains` (with a non-empty address) and `removeDomains`
only touch the keys they are given: any key not in the list keeps its
exact prior mapping, present or absent. -/
theorem registry_frame (m : Registry) (domains : List String) (ip k : String)
    (hip : ¬ ip = "") (hk : ¬ k ∈ domains) :
    registerDomains m domains ip k = m k ∧ removeDomains m domains k = m k := by
  constructor
  · rw [registerDomains_get m domains ip hip, if_neg hk]
  · rw [removeDomains_get, if_neg hk]

/-- C10 witness: an unrelated key is untouched by a concrete upsert and a
concrete remove. -/
theorem registry_frame_witness :
    registerDomains (registerDomains emptyRegistry ["other.host"] "10.0.0.9")
        ["a.b"] "10.0.0.1" "other.host"
      = registerDomains emptyRegistry ["other.host"] "10.0.0.9" "other.host"
    ∧ removeDomains (registerDomains emptyRegistry ["other.host"] "10.0.0.9")
        ["a.b"] "other.host"
      = registerDomains emptyRegistry ["other.host"] "10.0.0.9" "other.host" :=
  registry_frame (registerDomains emptyRegistry ["other.host"] "10.0.0.9")
    ["a.b"] "10.0.0.1" "other.host" (by decide) (by decide)

/-- Unfolding of `firstNonEmptyAddr` over a leading attachment. -/
theorem firstNonEmptyAddr_cons (n a : String) (l : List (String × String)) :
    firstNonEmptyAddr ((n, a) :: l) = if a = "" then firstNonEmptyAddr l else a := by
  by_cases ha : a = "" <;> simp [firstNonEmptyAddr, List.find?_cons, ha]

/-- When no attachment's lower-cased name equals the preferred name, the
network loop runs to completion: no match, and `firstip` ends as the first
non-empty address (or the incoming accumulator when already non-empty). -/
theorem netLoop_nomatch (cj : String) :
    ∀ (l : List (String × String)) (fi : String),
      (∀ q ∈ l, ¬ strToLower q.1 = cj) →
      netLoop cj l fi = ("", if fi = "" then firstNonEmptyAddr l else fi) := by
  intro l
  induction l with
  | nil =>
    intro fi _
    by_cases hfi : fi = "" <;> simp [netLoop, firstNonEmptyAddr, hfi]
  | cons q rest ih =>
    intro fi hall
    obtain ⟨n, a⟩ := q
    have hq : ¬ strToLower n = cj := hall (n, a) (by simp)
    have hrest : ∀ q ∈ rest, ¬ strToLower q.1 = cj := fun q hq2 => hall q (by simp [hq2])
    show (if strToLower n = cj then (a, if fi = "" then a else fi)
        else netLoop cj rest (if fi = "" then a else fi)) = _
    rw [if_neg hq, ih _ hrest, firstNonEmptyAddr_cons]
    by_cases hfi : fi = "" <;> by_cases ha : a = "" <;> simp [hfi, ha]

/-- The network loop stops at the first attachment whose lower-cased name
equals the preferred name and yields its address. -/
theorem netLoop_match (cj n a : String) (rest : List (String × String)) :
    ∀ (pre : List (String × String)) (fi : String),
      (∀ q ∈ pre, ¬ strToLower q.1 = cj) → strToLower n = cj →
      (netLoop cj (pre ++ (n, a) :: rest) fi).1 = a := by
  intro pre
  induction pre with
  | nil =>
    intro fi _ hn
    simp [netLoop, hn]
  | cons q pre' ih =>
    intro fi hall hn
    obtain ⟨n0, a0⟩ := q
    have hq : ¬ strToLower n0 = cj := hall (n0, a0) (by simp)
    have hpre : ∀ q ∈ pre', ¬ strToLower q.1 = cj := fun q hq2 => hall q (by simp [hq2])
    show (if strToLower n0 = cj then ((a0 : String), if fi = "" then a0 else fi)
        else netLoop cj (pre' ++ (n, a) :: rest) (if fi = "" then a0 else fi)).1 = a
    rw [if_neg hq]
    exact ih _ hpre hn

/-- The inner port-binding loop yields the first non-empty entry of the
group when one exists, the incoming value on an empty group, and `""`
otherwise. -/
theorem portInner_eq :
    ∀ (g : List String) (ip : String),
      portInner ip g = if g = [] then ip else (g.find? (fun s => ¬ s = "")).getD "" := by
  intro g
  induction g with
  | nil => intro ip; simp [portInner]
  | cons b rest ih =>
    intro ip
    have hstep : portInner ip (b :: rest) = if ¬ b = "" then b else portInner b rest := rfl
    rw [hstep]
    by_cases hb : b = ""
    · rw [if_neg (fun h => h hb)]
      subst hb
      rw [ih ""]
      cases rest with
      | nil => simp
      | cons c rest' => simp [List.find?_cons]
    · rw [if_pos hb]
      simp [List.find?_cons, hb]

/-- The outer port loop is a fold of the per-group value over the groups
in order. -/
theorem portOuter_eq :
    ∀ (ports : List (List String)) (ip : String),
      portOuter ip ports
        = ports.foldl
            (fun acc g => if g = [] then acc else (g.find? (fun s => ¬ s = "")).getD "")
            ip := by
  intro ports
  induction ports with
  | nil => intro ip; simp [portOuter]
  | cons g rest ih =>
    intro ip
    show portOuter (portInner ip g) rest = _
    rw [List.foldl_cons, ih, portInner_eq]

/-- C3 counterexample: the source lower-cases only the attachment's name
and compares it to the preferred name verbatim, so with preferred name
`CJ-Socks5` the attachment `cj-socks5` — case-insensitively equal —
is not selected and the first other network's address wins; a matched
attachment whose assigned address is empty is not returned either: the
code falls back to the first non-empty address instead, and the same
attachment set under the opposite enumeration order yields a different
result; and the port-binding fallback is not "the first non-empty
host-side address": a later all-empty binding group overwrites an earlier
found address. -/
theorem select_address_counterexample :
    strToLower "cj-socks5" = strToLower "CJ-Socks5"
    ∧ ¬ getContainerIP "CJ-Socks5"
        { networks := [("other", "10.9.9.9"), ("cj-socks5", "10.0.0.2")], ports := [] }
        = "10.0.0.2"
    ∧ getContainerIP "CJ-Socks5"
        { networks := [("other", "10.9.9.9"), ("cj-socks5", "10.0.0.2")], ports := [] }
        = "10.9.9.9"
    ∧ ¬ getContainerIP "cj-socks5"
        { networks := [("other", "10.9.9.9"), ("cj-socks5", "")], ports := [] }
        = ""
    ∧ getContainerIP "cj-socks5"
        { networks := [("other", "10.9.9.9"), ("cj-socks5", "")], ports := [] }
        = "10.9.9.9"
    ∧ getContainerIP "cj-socks5"
        { networks := [("cj-socks5", ""), ("other", "10.9.9.9")], ports := [] }
        = ""
    ∧ ¬ getContainerIP "cj-socks5"
        { networks := [], ports := [["1.2.3.4"], [""]] } = "1.2.3.4"
    ∧ getContainerIP "cj-socks5"
        { networks := [], ports := [["1.2.3.4"], [""]] } = "" :=
  ⟨by decide, by decide, by decide, by decide, by decide, by decide, by decide, by decide⟩

/-- C3 (amended): the attachment match lower-cases the attachment name and
compares it verbatim to the preferred name.  When a match exists and the
first matching attachment's address is non-empty, that address is returned
regardless of enumeration order; when no attachment matches, the first
non-empty address among the attachments is returned when one exists, and
otherwise the result is the port-binding scan, in which each non-empty
binding group overwrites the value with its first non-empty host-side
address (`""` when it has none), the empty string when nothing
qualifies. -/
theorem select_address_characterization (cj : String) (ns : NetworkSettingsModel) :
    (∀ pre networkname a rest,
        ns.networks = pre ++ (networkname, a) :: rest →
        (∀ q ∈ pre, ¬ strToLower q.1 = cj) →
        strToLower networkname = cj → ¬ a = "" →
        getContainerIP cj ns = a)
    ∧ ((∀ q ∈ ns.networks, ¬ strToLower q.1 = cj) →
        (¬ firstNonEmptyAddr ns.networks = "" →
            getContainerIP cj ns = firstNonEmptyAddr ns.networks)
        ∧ (firstNonEmptyAddr ns.networks = "" →
            getContainerIP cj ns = portsScan ns.ports)) := by
  constructor
  · intro pre n a rest hdecomp hpre hn ha
    have h1 : (netLoop cj ns.networks "").1 = a := by
      rw [hdecomp]; exact netLoop_match cj n a rest pre "" hpre hn
    simp [getContainerIP, h1, ha]
  · intro hall
    have h2 : netLoop cj ns.networks "" = ("", firstNonEmptyAddr ns.networks) := by
      rw [netLoop_nomatch cj ns.networks "" hall]
      simp
    constructor
    · intro hne
      simp [getContainerIP, h2, hne]
    · intro heq
      rw [heq] at h2
      simp only [getContainerIP, h2]
      rw [portsScan, ← portOuter_eq]
      simp

/-- C3 witness: with lower-case preferred name `cj-socks5`, the
attachment named `CJ-Socks5` is matched (its lower-cased name equals the
preferred name) and its address is returned even though an earlier
attachment exists. -/
theorem select_address_characterization_witness :
    getContainerIP "cj-socks5"
        { networks := [("Other", ""), ("CJ-Socks5", "10.0.0.2")], ports := [] }
        = "10.0.0.2" :=
  (select_address_characterization "cj-socks5"
      { networks := [("Other", ""), ("CJ-Socks5", "10.0.0.2")], ports := [] }).1
    [("Other", "")] "CJ-Socks5" "10.0.0.2" [] rfl (by decide) (by decide) (by decide)

/-- C1 (code bug): for a registered workload, a `stop`/`destroy`/`kill`/
`die` event leaves the registry entry in place even though inspection
succeeds and the workload's FQDN list is recomputable — the whole removal
body is commented out in the source (src/cjsocks.go lines 233-241), so
`removeDomains` is never applied; the claim (and the source's own header
comment "Monitors container creation/destruction to add/remove DNS
entries") says the entry is deleted. -/
theorem stop_event_leaves_registry_entry :
    getDomains c1Container default_base_domain = ["web.container"]
    ∧ getContainerIP default_cj_network_name c1Nets = "172.17.0.2"
    ∧ monitorDockerStep default_base_domain default_cj_network_name "stop"
        ⟨c1Container, c1Nets⟩ c1Registry = c1Registry
    ∧ monitorDockerStep default_base_domain default_cj_network_name "destroy"
        ⟨c1Container, c1Nets⟩ c1Registry = c1Registry
    ∧ monitorDockerStep default_base_domain default_cj_network_name "kill"
        ⟨c1Container, c1Nets⟩ c1Registry = c1Registry
    ∧ monitorDockerStep default_base_domain default_cj_network_name "die"
        ⟨c1Container, c1Nets⟩ c1Registry = c1Registry
    ∧ mapGet c1Registry "web.container" = "172.17.0.2" :=
  ⟨by decide, by decide, rfl, rfl, rfl, rfl, by decide⟩

/-- C5: in explicit container-domain mode (flag label `"true"` and a
non-empty runtime domain-name) the derived FQDN list is exactly
`[host "." domainname]`: no subdomain insertion and no default base
domain, whatever other labels are present. -/
theorem branchA_uses_container_domain_only (c : Container) (d : String)
    (hflag : c.config.labels label_cj_flag_use_container_base_domain = "true")
    (hdom : ¬ c.config.domainname = "") :
    getDomains c d = [publicHostname c ++ "." ++ c.config.domainname] := by
  simp [getDomains, hflag, hdom]

/-- C5 witness: host `api`, runtime domain `svc.local`, with subdomain and
domain labels also present, under base domain `container`. -/
theorem branchA_uses_container_domain_only_witness :
    getDomains c5Container "container" = ["api.svc.local"] :=
  (branchA_uses_container_domain_only c5Container "container"
    (by decide) (by decide)).trans (by decide)

/-- C6: in composed mode the derived FQDN is
`host "." [subdomain-component "."] domainTail`, where the subdomain
component is the subdomain label, else the compose project label, else
omitted, and the domain tail is the domain label, else the runtime
domain-name when the flag is `"true"` and it is non-empty (vacuous inside
this branch), else the default base domain. -/
theorem branchB_composed_fqdn (c : Container) (d : String)
    (h : ¬ (c.config.labels label_cj_flag_use_container_base_domain = "true"
        ∧ ¬ c.config.domainname = "")) :
    getDomains c d =
      [publicHostname c ++ "."
        ++ (if ¬ c.config.labels label_cj_subdomain = "" then
              c.config.labels label_cj_subdomain ++ "."
            else if ¬ c.config.labels label_docker_compose_project = "" then
              c.config.labels label_docker_compose_project ++ "."
            else "")
        ++ (if ¬ c.config.labels label_cj_domain = "" then
              c.config.labels label_cj_domain
            else if c.config.labels label_cj_flag_use_container_base_domain = "true"
                ∧ ¬ c.config.domainname = "" then
              c.config.domainname
            else d)] := by
  simp only [getDomains, if_neg h]
  split_ifs <;> simp [String.append_assoc]

/-- C6 witness: the spec's two composed-mode examples: a label-free
container named `svcweb` under base domain `container`, and a
compose-project `shop` container named `web`. -/
theorem branchB_composed_fqdn_witness :
    getDomains c6PlainContainer "container" = ["svcweb.container"]
    ∧ getDomains c6ComposeContainer "container" = ["web.shop.container"] :=
  ⟨(branchB_composed_fqdn c6PlainContainer "container" (by decide)).trans (by decide),
   (branchB_composed_fqdn c6ComposeContainer "container" (by decide)).trans (by decide)⟩

/-- C7: with no host-name label and no compose-service label, the runtime
hostname becomes the host part exactly when it is non-empty and its length
is not 12 (a length-only test); a 12-character or empty hostname makes
derivation fall through to the conventional name with its leading
separator stripped. -/
theorem hostname_twelve_char_check (c : Container)
    (h1 : c.config.labels label_cj_hostname = "")
    (h2 : c.config.labels label_docker_compose_service = "") :
    (¬ c.config.hostname.length = 12 ∧ ¬ c.config.hostname = "" →
        publicHostname c = c.config.hostname)
    ∧ (c.config.hostname.length = 12 ∨ c.config.hostname = "" →
        publicHostname c = c.name.drop 1) := by
  constructor
  · intro hcond
    simp [publicHostname, h1, h2, hcond]
  · intro hcond
    have hneg : ¬ (¬ c.config.hostname.length = 12 ∧ ¬ c.config.hostname = "") := by
      rcases hcond with hl | he
      · exact fun hc => hc.1 hl
      · exact fun hc => hc.2 he
    simp [publicHostname, h1, h2, hneg]

/-- C7 witness: a 12-character non-hexadecimal hostname is discarded (the
check is by length only) and the stripped name is used; a short hostname
is used directly. -/
theorem hostname_twelve_char_check_witness :
    publicHostname c7TwelveContainer = "svcweb"
    ∧ publicHostname c7ShortContainer = "api" :=
  ⟨((hostname_twelve_char_check c7TwelveContainer (by decide) (by decide)).2
      (Or.inl (by decide))).trans (by decide),
   ((hostname_twelve_char_check c7ShortContainer (by decide) (by decide)).1
      (by decide)).trans (by decide)⟩

end Cjsocks
